import Mathlib

set_option autoImplicit false

/-
Shallow embedding of the object-model core of the project262 repository
(src/src/core/*.rs).  Rust modules are mirrored as Lean namespaces:
numbers.* for src/core/numbers.rs, bigint.* for src/core/bigint.rs,
test.* for src/core/test.rs; the property and object algorithms from
src/core/property.rs and src/core/objects.rs live at the top level of the
Project262 namespace, keeping their source names.  Interior mutability
(RefCell/Cell storage inside BaseObject) is modelled by explicit state
passing over a heap of objects keyed by their MagicId.
-/

namespace Project262

/-- Model of a Rust f64 as used by src/core/numbers.rs.  The code only ever
distinguishes NaN, the two signed zeros, and all remaining doubles compared
with IEEE-754 equality; every non-NaN non-zero double is represented here by
an injective integer code, so code equality coincides with IEEE equality on
those values (distinct doubles compare unequal, equal doubles compare
equal, and NaN payloads are irrelevant to every operation the source
performs). -/
inductive FloatRep where
  | nan
  | zero (negative : Bool)
  | nonzero (code : Int)
deriving DecidableEq

/-- IEEE-754 equality (the Rust == operator on f64) on the model: NaN is
unequal to everything, the two zeros are equal, other values compare by
code. -/
def FloatRep.ieee_eq : FloatRep → FloatRep → Bool
  | .nan, _ => false
  | _, .nan => false
  | .zero _, .zero _ => true
  | .nonzero a, .nonzero b => a == b
  | _, _ => false

namespace numbers

/-- is_nan from src/core/numbers.rs. -/
def is_nan : FloatRep → Bool
  | .nan => true
  | _ => false

/-- is_zero from src/core/numbers.rs (value == 0.0, true for both zeros). -/
def is_zero : FloatRep → Bool
  | .zero _ => true
  | _ => false

/-- is_neg_zero from src/core/numbers.rs (zero with negative sign bit). -/
def is_neg_zero : FloatRep → Bool
  | .zero true => true
  | _ => false

/-- is_pos_zero from src/core/numbers.rs (zero with positive sign bit). -/
def is_pos_zero : FloatRep → Bool
  | .zero false => true
  | _ => false

/-- e262_equal from src/core/numbers.rs lines 3-11. -/
def e262_equal (x y : FloatRep) : Bool :=
  if is_nan x || is_nan y then false
  else if is_zero x && is_zero y then true
  else FloatRep.ieee_eq x y

/-- e262_same_value from src/core/numbers.rs lines 13-21. -/
def e262_same_value (x y : FloatRep) : Bool :=
  if is_nan x && is_nan y then true
  else if is_zero x && is_zero y then
    (is_neg_zero x && is_neg_zero y) || (is_pos_zero x && is_pos_zero y)
  else FloatRep.ieee_eq x y

/-- e262_same_value_zero from src/core/numbers.rs lines 24-32. -/
def e262_same_value_zero (x y : FloatRep) : Bool :=
  if is_nan x && is_nan y then true
  else if is_zero x && is_zero y then true
  else FloatRep.ieee_eq x y

end numbers

/-- StringRep from src/core/string.rs is a copy-on-write string; its
equality is content equality, so it is modelled as String. -/
abbrev StringRep := String

/-- SymbolRep from src/core/symbol.rs: a MagicId (process-unique random u64,
modelled as a Nat) plus an optional description.  The derived equality of
the source compares both fields structurally. -/
structure SymbolRep where
  id : Nat
  description : Option StringRep
deriving DecidableEq

/-- Value from src/core/value.rs.  An Object value holds an ObjectRep, a
reference-counted pointer compared by pointer identity; since every object
carries a process-unique MagicId, pointer identity coincides with id
equality, and the model stores the id. -/
inductive Value where
  | Null
  | Undefined
  | Boolean (b : Bool)
  | Number (n : FloatRep)
  | BigInt (i : Int)
  | Symbol (s : SymbolRep)
  | String (s : StringRep)
  | Object (id : Nat)
deriving DecidableEq

namespace bigint

/-- e262_equal from src/core/bigint.rs (BigInt structural equality). -/
def e262_equal (x y : Int) : Bool :=
  x == y

end bigint

/-- The Type enum of src/core/test.rs, renamed because Type is a Lean
keyword. -/
inductive TypeTag where
  | BigInt
  | Boolean
  | Number
  | Null
  | Object
  | String
  | Symbol
  | Undefined
deriving DecidableEq

namespace test

/-- e262_type from src/core/test.rs lines 87-98. -/
def e262_type : Value → TypeTag
  | .BigInt _ => .BigInt
  | .Boolean _ => .Boolean
  | .Number _ => .Number
  | .Null => .Null
  | .Object _ => .Object
  | .String _ => .String
  | .Symbol _ => .Symbol
  | .Undefined => .Undefined

/-- e262_same_value_non_number from src/core/test.rs lines 62-73.  The
final arm of the source match panics as unreachable (the function is only
called with equal type tags, where the catch-all cannot fire); the model
makes it false. -/
def e262_same_value_non_number (x y : Value) : Bool :=
  match x, y with
  | .Null, .Null => true
  | .Undefined, .Undefined => true
  | .BigInt a, .BigInt b => bigint.e262_equal a b
  | .Boolean a, .Boolean b => a == b
  | .String a, .String b => a == b
  | .Symbol a, .Symbol b => a == b
  | .Object a, .Object b => a == b
  | _, _ => false

/-- e262_is_strictly_equal from src/core/test.rs lines 13-22. -/
def e262_is_strictly_equal (x y : Value) : Bool :=
  if e262_type x != e262_type y then false
  else
    match x, y with
    | .Number a, .Number b => numbers.e262_equal a b
    | _, _ => e262_same_value_non_number x y

/-- e262_same_value from src/core/test.rs lines 40-49. -/
def e262_same_value (x y : Value) : Bool :=
  if e262_type x != e262_type y then false
  else
    match x, y with
    | .Number a, .Number b => numbers.e262_same_value a b
    | _, _ => e262_same_value_non_number x y

/-- e262_same_value_zero from src/core/test.rs lines 51-60. -/
def e262_same_value_zero (x y : Value) : Bool :=
  if e262_type x != e262_type y then false
  else
    match x, y with
    | .Number a, .Number b => numbers.e262_same_value_zero a b
    | _, _ => e262_same_value_non_number x y

end test

/-- Property from src/core/property.rs: the complete stored form of an own
property.  The source stores values behind Rc pointers; values are immutable,
so the pointers are modelled by the values themselves. -/
inductive Property where
  | Data (value : Value) (writable : Bool) (enumerable : Bool) (configurable : Bool)
  | Accessor (get : Option Value) (set : Option Value) (enumerable : Bool) (configurable : Bool)
deriving DecidableEq

/-- Property::is_accessor from src/core/property.rs. -/
def Property.is_accessor : Property → Bool
  | .Accessor _ _ _ _ => true
  | _ => false

/-- Property::is_data from src/core/property.rs. -/
def Property.is_data : Property → Bool
  | .Data _ _ _ _ => true
  | _ => false

/-- Property::is_enumerable from src/core/property.rs. -/
def Property.is_enumerable : Property → Bool
  | .Accessor _ _ enumerable _ => enumerable
  | .Data _ _ enumerable _ => enumerable

/-- Property::is_configurable from src/core/property.rs. -/
def Property.is_configurable : Property → Bool
  | .Accessor _ _ _ configurable => configurable
  | .Data _ _ _ configurable => configurable

/-- Descriptor from src/core/property.rs: the partial patch form, every
field optional. -/
structure Descriptor where
  value : Option Value := none
  writable : Option Bool := none
  get : Option Value := none
  set : Option Value := none
  enumerable : Option Bool := none
  configurable : Option Bool := none
deriving DecidableEq

/-- Descriptor::is_accessor from src/core/property.rs. -/
def Descriptor.is_accessor (d : Descriptor) : Bool :=
  d.get.isSome || d.set.isSome

/-- Descriptor::is_data from src/core/property.rs. -/
def Descriptor.is_data (d : Descriptor) : Bool :=
  d.value.isSome || d.writable.isSome

/-- Descriptor::is_empty from src/core/property.rs. -/
def Descriptor.is_empty (d : Descriptor) : Bool :=
  d.value.isNone && d.writable.isNone && d.get.isNone && d.set.isNone
    && d.enumerable.isNone && d.configurable.isNone

/-- Descriptor::is_generic from src/core/property.rs. -/
def Descriptor.is_generic (d : Descriptor) : Bool :=
  !d.is_accessor && !d.is_data

/-- e262_is_accessor_descriptor from src/core/property.rs. -/
def e262_is_accessor_descriptor : Option Descriptor → Bool
  | none => false
  | some desc => desc.is_accessor

/-- e262_is_data_descriptor from src/core/property.rs. -/
def e262_is_data_descriptor : Option Descriptor → Bool
  | none => false
  | some desc => desc.is_data

/-- e262_is_generic_descriptor from src/core/property.rs. -/
def e262_is_generic_descriptor : Option Descriptor → Bool
  | none => false
  | some desc => desc.is_generic

/-- e262_complete_property_descriptor from src/core/property.rs lines
193-209 (the From Descriptor for Property conversion).  Note: in the data
branch the source fills the configurable attribute from desc.enumerable
(line 206); the model reproduces that line verbatim. -/
def e262_complete_property_descriptor (desc : Descriptor) : Property :=
  if e262_is_accessor_descriptor (some desc) then
    .Accessor desc.get desc.set (desc.enumerable.getD false) (desc.configurable.getD false)
  else
    .Data (desc.value.getD Value.Undefined) (desc.writable.getD false)
      (desc.enumerable.getD false) (desc.enumerable.getD false)

/-- PropertyKey from src/core/objects.rs lines 16-22. -/
inductive PropertyKey where
  | String (s : StringRep)
  | Symbol (s : SymbolRep)
deriving DecidableEq

/-- BaseObject from src/core/objects.rs lines 69-76.  The RefCell/Cell
interior mutability is modelled by explicit state passing; the OrderMap of
properties is modelled as an insertion-ordered association list, the slots
map as an association list with opaque (Nat-coded) Any payloads, and the
prototype ObjectRep as the id of the referenced object. -/
structure BaseObject where
  id : Nat
  props : List (PropertyKey × Property)
  slots : List (StringRep × Nat)
  prototype : Option Nat
  extensible : Bool
deriving DecidableEq

/-- A heap of live objects keyed by MagicId, standing for the collection of
Rc allocations of the running program.  Ids are unique in a well-formed
heap; lookups take the first match. -/
abbrev Heap := List (Nat × BaseObject)

/-- First-match lookup of an object by id. -/
def lookupObj : Heap → Nat → Option BaseObject
  | [], _ => none
  | (j, o) :: rest, i => if j = i then some o else lookupObj rest i

/-- In-place update of the object with the given id (mutation through an Rc
in the source), leaving every other entry as it is. -/
def modifyObj : Heap → Nat → (BaseObject → BaseObject) → Heap
  | [], _, _ => []
  | (j, o) :: rest, i, f =>
    if j = i then (j, f o) :: modifyObj rest i f else (j, o) :: modifyObj rest i f

/-- OrderMap::get on the props map: first matching key. -/
def propsGet : List (PropertyKey × Property) → PropertyKey → Option Property
  | [], _ => none
  | (k, p) :: rest, key => if k = key then some p else propsGet rest key

/-- OrderMap::insert on the props map: replace in place when the key is
present, append otherwise. -/
def propsInsert : List (PropertyKey × Property) → PropertyKey → Property → List (PropertyKey × Property)
  | [], key, prop => [(key, prop)]
  | (k, p) :: rest, key, prop =>
    if k = key then (k, prop) :: rest else (k, p) :: propsInsert rest key prop

/-- OrderMap::remove on the props map: drop the entry for the key,
preserving the order of the rest. -/
def propsRemove (props : List (PropertyKey × Property)) (key : PropertyKey) : List (PropertyKey × Property) :=
  props.filter (fun e => decide (e.1 ≠ key))

/-- CoreError from src/errors/mod.rs. -/
inductive CoreError where
  | EvalError (msg : StringRep)
  | RangeError (msg : StringRep)
  | ReferenceError (msg : StringRep)
  | SyntaxError (msg : StringRep)
  | TypeError (msg : StringRep)
  | URIError (msg : StringRep)
deriving DecidableEq

/-- CoreResult from src/errors/mod.rs. -/
abbrev CoreResult (α : Type) := Except CoreError α

/-- e262_ordinary_get_own_property from src/core/objects.rs lines 190-197.
The source receives a live Rc; a dangling id (impossible there) yields
none. -/
def e262_ordinary_get_own_property (heap : Heap) (objId : Nat) (key : PropertyKey) : Option Property :=
  match lookupObj heap objId with
  | some o => propsGet o.props key
  | none => none

/-- e262_ordinary_get_prototype_of from src/core/objects.rs lines 199-203. -/
def e262_ordinary_get_prototype_of (heap : Heap) (objId : Nat) : Option Nat :=
  match lookupObj heap objId with
  | some o => o.prototype
  | none => none

/-- e262_ordinary_is_extensible from src/core/objects.rs lines 223-226.  A
dangling id (impossible in the source) defaults to the construction value
true. -/
def e262_ordinary_is_extensible (heap : Heap) (objId : Nat) : Bool :=
  match lookupObj heap objId with
  | some o => o.extensible
  | none => true

/-- e262_ordinary_prevent_extensions from src/core/objects.rs lines
228-232. -/
def e262_ordinary_prevent_extensions (heap : Heap) (objId : Nat) : Bool × Heap :=
  (true, modifyObj heap objId (fun b => { b with extensible := false }))

/-- e262_ordinary_delete from src/core/objects.rs lines 170-188, with the
object state passed explicitly.  The Err arm of the source match is
unreachable here: the ordinary get_own_property it calls always returns
Ok. -/
def e262_ordinary_delete (heap : Heap) (objId : Nat) (key : PropertyKey) : CoreResult (Bool × Heap) :=
  match e262_ordinary_get_own_property heap objId key with
  | none => .ok (true, heap)
  | some prop =>
    if prop.is_configurable then
      .ok (true, modifyObj heap objId (fun b => { b with props := propsRemove b.props key }))
    else
      .ok (false, heap)

/-- The non-configurable validation block of
e262_validate_and_apply_property_descriptor, src/core/objects.rs lines
318-366; the result is true when no reject branch fires. -/
def validateNonConfigurable (desc : Descriptor) (current : Property) : Bool :=
  if desc.configurable == some true then false
  else if desc.enumerable == some current.is_enumerable then false
  else if !desc.is_generic && (desc.is_accessor != current.is_accessor) then false
  else
    match current with
    | .Accessor current_get current_set _ _ =>
      (match desc.get with
       | some g => test.e262_same_value g (current_get.getD Value.Undefined)
       | none => true)
      &&
      (match desc.set with
       | some s => test.e262_same_value s (current_set.getD Value.Undefined)
       | none => true)
    | .Data current_value current_writable _ _ =>
      if !current_writable then
        (!(desc.writable == some true))
        &&
        (match desc.value with
         | some v => test.e262_same_value v current_value
         | none => true)
      else true

/-- The apply step of e262_validate_and_apply_property_descriptor,
src/core/objects.rs lines 369-412: the complete property stored once
validation has passed and an object was supplied. -/
def applyDescriptor (desc : Descriptor) (current : Property) : Property :=
  match current with
  | .Accessor _ _ enumerable configurable =>
    if desc.is_accessor then
      .Accessor desc.get desc.set (desc.enumerable.getD false) (desc.configurable.getD false)
    else
      .Data (desc.value.getD Value.Undefined) (desc.writable.getD false)
        (desc.enumerable.getD enumerable) (desc.configurable.getD configurable)
  | .Data _ _ enumerable configurable =>
    if desc.is_data then
      .Data (desc.value.getD Value.Undefined) (desc.writable.getD false)
        (desc.enumerable.getD false) (desc.configurable.getD false)
    else
      .Accessor desc.get desc.set (desc.enumerable.getD enumerable) (desc.configurable.getD configurable)

/-- e262_validate_and_apply_property_descriptor from src/core/objects.rs
lines 291-420.  The optional mutable target object of the source is an
optional object id into the explicit heap; the returned heap is the state
after the call (the only mutation the source performs is the props insert on
the supplied object). -/
def e262_validate_and_apply_property_descriptor (heap : Heap) (obj : Option Nat)
    (key : PropertyKey) (extensible : Bool) (desc : Descriptor)
    (current : Option Property) : Bool × Heap :=
  match current with
  | none =>
    if !extensible then (false, heap)
    else
      match obj with
      | none => (true, heap)
      | some objId =>
        (true, modifyObj heap objId
          (fun b => { b with props := propsInsert b.props key (e262_complete_property_descriptor desc) }))
  | some current =>
    if desc.is_empty then (true, heap)
    else if !current.is_configurable && !validateNonConfigurable desc current then (false, heap)
    else
      match obj with
      | none => (true, heap)
      | some objId =>
        (true, modifyObj heap objId
          (fun b => { b with props := propsInsert b.props key (applyDescriptor desc current) }))

/-- e262_ordinary_define_own_property from src/core/objects.rs lines
154-168.  The Ok wrappers of the source are elided: for ordinary objects
the get_own_property and is_extensible calls it makes never fail. -/
def e262_ordinary_define_own_property (heap : Heap) (objId : Nat) (key : PropertyKey)
    (desc : Descriptor) : Bool × Heap :=
  let current := e262_ordinary_get_own_property heap objId key
  let extensible := e262_ordinary_is_extensible heap objId
  e262_validate_and_apply_property_descriptor heap (some objId) key extensible desc current

/-- e262_is_compatible_property_descriptor from src/core/objects.rs lines
234-246: validation-only call with no target object and an empty string
key. -/
def e262_is_compatible_property_descriptor (extensible : Bool) (desc : Descriptor)
    (current : Option Property) : Bool :=
  (e262_validate_and_apply_property_descriptor [] none (PropertyKey.String ("")) extensible desc current).1

/-- The ids present in the heap. -/
def heapIds (heap : Heap) : List Nat :=
  heap.map Prod.fst

theorem mem_heapIds_of_lookupObj {heap : Heap} {i : Nat} {o : BaseObject}
    (h : lookupObj heap i = some o) : i ∈ heapIds heap := by
  induction heap with
  | nil => simp [lookupObj] at h
  | cons e rest ih =>
    obtain ⟨j, o2⟩ := e
    by_cases hj : j = i
    · subst hj
      simp [heapIds]
    · simp only [lookupObj, if_neg hj] at h
      simp [heapIds]
      right
      have := ih h
      simpa [heapIds] using this

theorem length_filter_notMem_cons_le (l : List Nat) (a : Nat) (found : List Nat) :
    (l.filter (fun x => decide (x ∉ a :: found))).length
      ≤ (l.filter (fun x => decide (x ∉ found))).length := by
  induction l with
  | nil => simp
  | cons b l ih =>
    simp only [List.filter_cons]
    by_cases h1 : b ∈ found
    · have e1 : decide (b ∉ found) = false := by simp [h1]
      have e2 : decide (b ∉ a :: found) = false := by simp [h1]
      simp only [e1, e2, Bool.false_eq_true, if_false]
      exact ih
    · by_cases h2 : b = a
      · have e1 : decide (b ∉ found) = true := by simp [h1]
        have e2 : decide (b ∉ a :: found) = false := by simp [h2]
        simp only [e1, e2, Bool.false_eq_true, if_false, if_true, List.length_cons]
        omega
      · have e1 : decide (b ∉ found) = true := by simp [h1]
        have e2 : decide (b ∉ a :: found) = true := by simp [h1, h2]
        simp only [e1, e2, if_true, List.length_cons]
        omega

theorem length_filter_notMem_cons_lt (l : List Nat) (a : Nat) (found : List Nat)
    (hal : a ∈ l) (haf : a ∉ found) :
    (l.filter (fun x => decide (x ∉ a :: found))).length
      < (l.filter (fun x => decide (x ∉ found))).length := by
  induction l with
  | nil => cases hal
  | cons b l ih =>
    simp only [List.filter_cons]
    by_cases h2 : b = a
    · subst h2
      have e1 : decide (b ∉ found) = true := by simp [haf]
      have e2 : decide (b ∉ b :: found) = false := by simp
      simp only [e1, e2, Bool.false_eq_true, if_false, if_true, List.length_cons]
      have := length_filter_notMem_cons_le l b found
      omega
    · have hal2 : a ∈ l := by
        rcases List.mem_cons.mp hal with h | h
        · exact absurd h.symm h2
        · exact h
      have hlt := ih hal2
      by_cases h1 : b ∈ found
      · have e1 : decide (b ∉ found) = false := by simp [h1]
        have e2 : decide (b ∉ a :: found) = false := by simp [h1]
        simp only [e1, e2, Bool.false_eq_true, if_false]
        exact hlt
      · have e1 : decide (b ∉ found) = true := by simp [h1]
        have e2 : decide (b ∉ a :: found) = true := by simp [h1, fun h => h2 h]
        simp only [e1, e2, if_true, List.length_cons]
        omega

/-- The prototype-chain walk of e262_ordinary_set_prototype_of,
src/core/objects.rs lines 264-284.  Returns none when the walk meets the
object itself (the source returns false there); otherwise returns the final
value of the loop variable p, which is exactly what the source then stores
into the prototype cell (p is none when the walk ended at a null prototype,
and the revisited node when the walk short-circuited on a cycle).  A
dangling id stops the walk; it cannot occur in the source, where every
ObjectRep is a live Rc. -/
def walkProtos (heap : Heap) (baseId : Nat) (found : List Nat) (p : Option Nat) :
    Option (Option Nat) :=
  match p with
  | none => some none
  | some currId =>
    if currId = baseId then none
    else if currId ∈ found then some (some currId)
    else
      match h : lookupObj heap currId with
      | none => some (some currId)
      | some o => walkProtos heap baseId (currId :: found) o.prototype
termination_by ((heapIds heap).filter (fun x => decide (x ∉ found))).length
decreasing_by
  exact length_filter_notMem_cons_lt (heapIds heap) currId found
    (mem_heapIds_of_lookupObj h) (by assumption)

/-- e262_ordinary_set_prototype_of from src/core/objects.rs lines 248-288,
with the heap passed explicitly.  The final replace of the source stores the
loop variable p (the end of the walked chain), not the requested prototype;
the model reproduces that data flow.  (The source additionally still holds
the RefMut taken for the initial comparison when it reaches the replace
call, a runtime borrow conflict; the model keeps the pure data flow.) -/
def e262_ordinary_set_prototype_of (heap : Heap) (objId : Nat) (proto : Option Nat) :
    Bool × Heap :=
  match lookupObj heap objId with
  | none => (false, heap)
  | some base =>
    if base.prototype = proto then (true, heap)
    else if !base.extensible then (false, heap)
    else
      match walkProtos heap objId [] proto with
      | none => (false, heap)
      | some pEnd => (true, modifyObj heap objId (fun b => { b with prototype := pEnd }))

/-- The property map stored for the given object id (empty for a dangling
id). -/
def objPropsOf (heap : Heap) (i : Nat) : List (PropertyKey × Property) :=
  match lookupObj heap i with
  | some o => o.props
  | none => []

theorem lookupObj_modifyObj (heap : Heap) (i : Nat) (f : BaseObject → BaseObject) :
    lookupObj (modifyObj heap i f) i = (lookupObj heap i).map f := by
  induction heap with
  | nil => rfl
  | cons e rest ih =>
    obtain ⟨j, o⟩ := e
    by_cases hj : j = i
    · subst hj
      simp [modifyObj, lookupObj]
    · simp [modifyObj, lookupObj, hj, ih]

theorem propsGet_propsRemove (props : List (PropertyKey × Property)) (key : PropertyKey) :
    propsGet (propsRemove props key) key = none := by
  induction props with
  | nil => rfl
  | cons e rest ih =>
    obtain ⟨k, p⟩ := e
    by_cases hk : k = key
    · subst hk
      simpa [propsRemove, List.filter_cons] using ih
    · have hd : decide (k ≠ key) = true := by simp [hk]
      simp only [propsRemove, List.filter_cons, hd, if_true] at ih ⊢
      simpa [propsGet, if_neg hk] using ih

/-- Sample object for the C1 analysis: a single non-configurable,
non-enumerable data property at key x. -/
def objC1 : BaseObject :=
  { id := 0
    props := [(PropertyKey.String ("x"), .Data .Undefined false false false)]
    slots := []
    prototype := none
    extensible := true }

/-- C1: the claim fails on the code.  With a non-configurable current
property whose enumerable is false, a descriptor providing enumerable equal
to the current value (false) is rejected, while a descriptor providing a
differing enumerable (true) passes this branch and the whole call succeeds:
line 321 of src/core/objects.rs compares desc.enumerable with
Some(current.is_enumerable()) using == where the specification demands a
provided-and-differs test. -/
theorem c1_enumerable_check_rejects_equal_accepts_different :
    (e262_validate_and_apply_property_descriptor [] none (PropertyKey.String ("x")) true
        { enumerable := some false } (some (.Data .Undefined false false false))).1 = false
      ∧ (e262_validate_and_apply_property_descriptor [] none (PropertyKey.String ("x")) true
        { enumerable := some true } (some (.Data .Undefined false false false))).1 = true
      ∧ (e262_ordinary_define_own_property [(0, objC1)] 0 (PropertyKey.String ("x"))
        { enumerable := some false }).1 = false := by
  exact ⟨by decide, by decide, by decide⟩

/-- Sample object for the C3 data case: a fully configurable, writable,
enumerable data property holding the number 1. -/
def objC3data : BaseObject :=
  { id := 0
    props := [(PropertyKey.String ("x"), .Data (.Number (.nonzero 1)) true true true)]
    slots := []
    prototype := none
    extensible := true }

/-- Sample object for the C3 accessor case: a configurable accessor property
with both a getter and a setter. -/
def objC3acc : BaseObject :=
  { id := 0
    props := [(PropertyKey.String ("x"), .Accessor (some (.Object 7)) (some (.Object 8)) true true)]
    slots := []
    prototype := none
    extensible := true }

/-- C3: the claim fails on the code.  Redefining an existing configurable
data property with a descriptor specifying only a new value resets
writable, enumerable and configurable to false instead of carrying them
over, and redefining an existing accessor property with a descriptor
specifying only set drops the current getter: in the apply step
(src/core/objects.rs lines 369-412) the same-shape branches default every
unspecified field instead of retaining the current attributes (the
carry-over is only performed in the shape-change branches). -/
theorem c3_same_shape_redefinition_drops_unspecified_fields :
    (e262_ordinary_define_own_property [(0, objC3data)] 0 (PropertyKey.String ("x"))
        { value := some (.Number (.nonzero 2)) }).1 = true
      ∧ e262_ordinary_get_own_property
          (e262_ordinary_define_own_property [(0, objC3data)] 0 (PropertyKey.String ("x"))
            { value := some (.Number (.nonzero 2)) }).2 0 (PropertyKey.String ("x"))
        = some (.Data (.Number (.nonzero 2)) false false false)
      ∧ e262_ordinary_get_own_property
          (e262_ordinary_define_own_property [(0, objC3acc)] 0 (PropertyKey.String ("x"))
            { set := some (.Object 9) }).2 0 (PropertyKey.String ("x"))
        = some (.Accessor none (some (.Object 9)) false false) := by
  exact ⟨by decide, by decide, by decide⟩

/-- Sample extensible object with no properties, for C4. -/
def objC4ext : BaseObject :=
  { id := 0, props := [], slots := [], prototype := none, extensible := true }

/-- Sample non-extensible object with no properties, for C4. -/
def objC4nonext : BaseObject :=
  { id := 0, props := [], slots := [], prototype := none, extensible := false }

/-- C4: the claim fails on the code.  The non-extensible half holds (the
call fails and the object is untouched), but on an extensible object the
materialized property takes its configurable attribute from the
descriptor's enumerable field: line 206 of src/core/property.rs writes
configurable from desc.enumerable in the data branch, so a data descriptor
with enumerable true and configurable unset is stored with configurable
true instead of the claimed default false. -/
theorem c4_materialized_configurable_taken_from_enumerable :
    e262_ordinary_define_own_property [(0, objC4nonext)] 0 (PropertyKey.String ("x"))
        { value := some .Undefined, enumerable := some true } = (false, [(0, objC4nonext)])
      ∧ (e262_ordinary_define_own_property [(0, objC4ext)] 0 (PropertyKey.String ("x"))
        { value := some .Undefined, enumerable := some true }).1 = true
      ∧ e262_ordinary_get_own_property
          (e262_ordinary_define_own_property [(0, objC4ext)] 0 (PropertyKey.String ("x"))
            { value := some .Undefined, enumerable := some true }).2 0 (PropertyKey.String ("x"))
        = some (.Data .Undefined false true true) := by
  exact ⟨by decide, by decide, by decide⟩

/-- Sample object for C5: a non-configurable, non-writable, non-enumerable
data property holding undefined. -/
def objC5 : BaseObject :=
  { id := 0
    props := [(PropertyKey.String ("x"), .Data .Undefined false false false)]
    slots := []
    prototype := none
    extensible := true }

/-- C5: the claim fails on the code.  Redefining the stored non-configurable
property with a descriptor whose every field explicitly matches the current
attributes returns false (the object is left unchanged but the call is
rejected): the inverted enumerable comparison on line 321 of
src/core/objects.rs fires precisely when the provided enumerable equals the
current one. -/
theorem c5_identical_redefinition_fails_when_nonconfigurable :
    e262_ordinary_define_own_property [(0, objC5)] 0 (PropertyKey.String ("x"))
        { value := some .Undefined, writable := some false,
          enumerable := some false, configurable := some false }
      = (false, [(0, objC5)]) := by
  decide

/-- First object of the C2 counterexample: extensible, prototype null. -/
def objC2a : BaseObject :=
  { id := 0, props := [], slots := [], prototype := none, extensible := true }

/-- Second object of the C2 counterexample: a fresh object with a null
prototype, requested as the new prototype of the first. -/
def objC2b : BaseObject :=
  { id := 1, props := [], slots := [], prototype := none, extensible := true }

/-- C2: the claim fails on the code.  Requesting object 1 (whose own
prototype is null) as the prototype of the extensible object 0 returns
true, but the stored pointer is the final value of the walk variable (null
here), not the requested prototype: a following get_prototype_of yields
none instead of some 1 (src/core/objects.rs line 285 replaces the prototype
with p after the loop has advanced p past the requested node). -/
theorem c2_set_prototype_stores_walk_end :
    (e262_ordinary_set_prototype_of [(0, objC2a), (1, objC2b)] 0 (some 1)).1 = true
      ∧ e262_ordinary_get_prototype_of
          (e262_ordinary_set_prototype_of [(0, objC2a), (1, objC2b)] 0 (some 1)).2 0 = none := by
  have hw : walkProtos [(0, objC2a), (1, objC2b)] 0 [] (some 1) = some none := by
    rw [walkProtos]
    simp [lookupObj, objC2b]
    rw [walkProtos]
  have h1 : lookupObj [(0, objC2a), (1, objC2b)] 0 = some objC2a := rfl
  have h2 : (objC2a.prototype = some 1) = False := by simp [objC2a]
  have h3 : objC2a.extensible = true := rfl
  have hstep : e262_ordinary_set_prototype_of [(0, objC2a), (1, objC2b)] 0 (some 1)
      = (true, modifyObj [(0, objC2a), (1, objC2b)] 0 (fun b => { b with prototype := none })) := by
    simp only [e262_ordinary_set_prototype_of]
    rw [h1]
    simp only [h2, h3, if_false, Bool.not_true, Bool.false_eq_true]
    rw [hw]
  constructor
  · rw [hstep]
  · rw [hstep]
    simp [e262_ordinary_get_prototype_of, lookupObj_modifyObj, h1]

/-- C6: delete returns Ok true and removes the binding whenever the key is
absent or the stored property is configurable, and returns Ok false (a
successful result, not an error) leaving the heap untouched whenever the
stored property is non-configurable. -/
theorem c6_delete_behaviour (heap : Heap) (objId : Nat) (o : BaseObject) (key : PropertyKey)
    (hlook : lookupObj heap objId = some o) :
    (propsGet o.props key = none →
        e262_ordinary_delete heap objId key = .ok (true, heap)
          ∧ e262_ordinary_get_own_property heap objId key = none)
      ∧ (∀ p : Property, propsGet o.props key = some p → p.is_configurable = true →
          e262_ordinary_delete heap objId key
              = .ok (true, modifyObj heap objId (fun b => { b with props := propsRemove b.props key }))
            ∧ e262_ordinary_get_own_property
                (modifyObj heap objId (fun b => { b with props := propsRemove b.props key }))
                objId key = none)
      ∧ (∀ p : Property, propsGet o.props key = some p → p.is_configurable = false →
          e262_ordinary_delete heap objId key = .ok (false, heap)
            ∧ e262_ordinary_get_own_property heap objId key = some p) := by
  refine ⟨?_, ?_, ?_⟩
  · intro habs
    constructor
    · simp [e262_ordinary_delete, e262_ordinary_get_own_property, hlook, habs]
    · simp [e262_ordinary_get_own_property, hlook, habs]
  · intro p hp hc
    constructor
    · simp [e262_ordinary_delete, e262_ordinary_get_own_property, hlook, hp, hc]
    · simp [e262_ordinary_get_own_property, lookupObj_modifyObj, hlook, propsGet_propsRemove]
  · intro p hp hc
    constructor
    · simp [e262_ordinary_delete, e262_ordinary_get_own_property, hlook, hp, hc]
    · simp [e262_ordinary_get_own_property, hlook, hp]

/-- Sample object for the C6 witness: one configurable property at key x. -/
def objC6 : BaseObject :=
  { id := 0
    props := [(PropertyKey.String ("x"), .Data .Undefined false false true)]
    slots := []
    prototype := none
    extensible := true }

/-- Witness for C6 at a concrete heap: deleting the configurable property
of objC6 succeeds and the following lookup misses. -/
theorem c6_delete_behaviour_witness :
    e262_ordinary_delete [(0, objC6)] 0 (PropertyKey.String ("x"))
        = .ok (true, modifyObj [(0, objC6)] 0
            (fun b => { b with props := propsRemove b.props (PropertyKey.String ("x")) }))
      ∧ e262_ordinary_get_own_property
          (modifyObj [(0, objC6)] 0
            (fun b => { b with props := propsRemove b.props (PropertyKey.String ("x")) }))
          0 (PropertyKey.String ("x")) = none :=
  (c6_delete_behaviour [(0, objC6)] 0 objC6 (PropertyKey.String ("x")) rfl).2.1
    (.Data .Undefined false false true) rfl rfl

/-- C7: for any live ordinary object whose current prototype is not itself,
requesting itself as prototype returns false with the heap unchanged
(whether or not it is extensible), and requesting its current prototype
again is accepted trivially before the extensibility check. -/
theorem c7_self_cycle_rejected_and_trivial_accept (heap : Heap) (objId : Nat)
    (o : BaseObject) (hlook : lookupObj heap objId = some o) :
    (o.prototype ≠ some objId →
        e262_ordinary_set_prototype_of heap objId (some objId) = (false, heap))
      ∧ e262_ordinary_set_prototype_of heap objId o.prototype = (true, heap) := by
  constructor
  · intro hne
    rw [e262_ordinary_set_prototype_of, hlook]
    simp only [if_neg hne]
    cases hext : o.extensible
    · simp
    · have hwalk : walkProtos heap objId [] (some objId) = none := by
        rw [walkProtos]
        simp
      simp [hwalk]
  · rw [e262_ordinary_set_prototype_of, hlook]
    simp

/-- Sample object for the C7 witness: non-extensible with a null prototype,
exercising both the self-cycle rejection and the trivial acceptance that
bypasses the extensibility check. -/
def objC7 : BaseObject :=
  { id := 0, props := [], slots := [], prototype := none, extensible := false }

/-- Witness for C7 at a concrete heap. -/
theorem c7_self_cycle_rejected_and_trivial_accept_witness :
    e262_ordinary_set_prototype_of [(0, objC7)] 0 (some 0) = (false, [(0, objC7)])
      ∧ e262_ordinary_set_prototype_of [(0, objC7)] 0 none = (true, [(0, objC7)]) := by
  have h := c7_self_cycle_rejected_and_trivial_accept [(0, objC7)] 0 objC7 rfl
  exact ⟨h.1 (by decide), h.2⟩

/-- C8: SameValue equates NaN with itself and distinguishes the signed
zeros, StrictEquals does the opposite, SameValueZero equates both, and all
three relations are false whenever the type tags differ. -/
theorem c8_equality_relations :
    (test.e262_same_value (.Number .nan) (.Number .nan) = true
        ∧ test.e262_same_value (.Number (.zero false)) (.Number (.zero true)) = false
        ∧ test.e262_is_strictly_equal (.Number (.zero false)) (.Number (.zero true)) = true
        ∧ test.e262_is_strictly_equal (.Number .nan) (.Number .nan) = false
        ∧ test.e262_same_value_zero (.Number (.zero false)) (.Number (.zero true)) = true
        ∧ test.e262_same_value_zero (.Number .nan) (.Number .nan) = true)
      ∧ ∀ x y : Value, test.e262_type x ≠ test.e262_type y →
          test.e262_same_value x y = false
            ∧ test.e262_is_strictly_equal x y = false
            ∧ test.e262_same_value_zero x y = false := by
  constructor
  · exact ⟨by decide, by decide, by decide, by decide, by decide, by decide⟩
  · intro x y h
    refine ⟨?_, ?_, ?_⟩
    · simp [test.e262_same_value, bne_iff_ne, h]
    · simp [test.e262_is_strictly_equal, bne_iff_ne, h]
    · simp [test.e262_same_value_zero, bne_iff_ne, h]

/-- Witness for C8's different-type-tags clause at Null versus Undefined. -/
theorem c8_equality_relations_witness :
    test.e262_same_value .Null .Undefined = false
      ∧ test.e262_is_strictly_equal .Null .Undefined = false
      ∧ test.e262_same_value_zero .Null .Undefined = false :=
  c8_equality_relations.2 .Null .Undefined (by decide)

/-- C9: when an own property is already stored at the key, neither the
boolean result of define_own_property nor the final property map depends on
the extensible flag: the flag is read only on the no-current-property
path. -/
theorem c9_define_ignores_extensible_when_property_exists (o : BaseObject) (e1 e2 : Bool)
    (key : PropertyKey) (desc : Descriptor) (cur : Property)
    (hcur : propsGet o.props key = some cur) :
    (e262_ordinary_define_own_property [(o.id, { o with extensible := e1 })] o.id key desc).1
        = (e262_ordinary_define_own_property [(o.id, { o with extensible := e2 })] o.id key desc).1
      ∧ objPropsOf
          (e262_ordinary_define_own_property [(o.id, { o with extensible := e1 })] o.id key desc).2
          o.id
        = objPropsOf
            (e262_ordinary_define_own_property [(o.id, { o with extensible := e2 })] o.id key desc).2
            o.id := by
  have l1 : lookupObj [(o.id, { o with extensible := e1 })] o.id
      = some { o with extensible := e1 } := by simp [lookupObj]
  have l2 : lookupObj [(o.id, { o with extensible := e2 })] o.id
      = some { o with extensible := e2 } := by simp [lookupObj]
  simp only [e262_ordinary_define_own_property, e262_ordinary_get_own_property,
    e262_ordinary_is_extensible, l1, l2]
  have hp1 : ({ o with extensible := e1 } : BaseObject).props = o.props := rfl
  have hp2 : ({ o with extensible := e2 } : BaseObject).props = o.props := rfl
  rw [hp1, hp2, hcur]
  simp only [e262_validate_and_apply_property_descriptor]
  by_cases hemp : desc.is_empty = true
  · simp [hemp, objPropsOf, lookupObj]
  · by_cases hval : (!cur.is_configurable && !validateNonConfigurable desc cur) = true
    · simp [hemp, hval, objPropsOf, lookupObj]
    · simp [hemp, hval, objPropsOf, lookupObj, modifyObj]

/-- Sample object for the C9 witness: a writable, configurable data
property at key x. -/
def objC9 : BaseObject :=
  { id := 0
    props := [(PropertyKey.String ("x"), .Data .Undefined true true true)]
    slots := []
    prototype := none
    extensible := true }

/-- Witness for C9 at a concrete object, with the extensible flag flipped
between the two runs. -/
theorem c9_define_ignores_extensible_witness :
    (e262_ordinary_define_own_property [(0, { objC9 with extensible := true })] objC9.id
          (PropertyKey.String ("x")) { value := some (.Boolean true) }).1
        = (e262_ordinary_define_own_property [(0, { objC9 with extensible := false })] objC9.id
          (PropertyKey.String ("x")) { value := some (.Boolean true) }).1
      ∧ objPropsOf
          (e262_ordinary_define_own_property [(0, { objC9 with extensible := true })] objC9.id
            (PropertyKey.String ("x")) { value := some (.Boolean true) }).2 objC9.id
        = objPropsOf
            (e262_ordinary_define_own_property [(0, { objC9 with extensible := false })] objC9.id
              (PropertyKey.String ("x")) { value := some (.Boolean true) }).2 objC9.id :=
  c9_define_ignores_extensible_when_property_exists objC9 true false
    (PropertyKey.String ("x")) { value := some (.Boolean true) }
    (.Data .Undefined true true true) rfl

/-- C10: with no target object supplied (validation-only mode, as used by
e262_is_compatible_property_descriptor), ValidateAndApplyPropertyDescriptor
returns the heap exactly as it received it for every input: it computes a
verdict and mutates nothing. -/
theorem c10_validation_only_leaves_heap_unchanged :
    ∀ (heap : Heap) (key : PropertyKey) (extensible : Bool) (desc : Descriptor)
      (current : Option Property),
      (e262_validate_and_apply_property_descriptor heap none key extensible desc current).2
        = heap := by
  intro heap key extensible desc current
  cases current with
  | none =>
    cases extensible
    · rfl
    · rfl
  | some cur =>
    simp only [e262_validate_and_apply_property_descriptor]
    by_cases hemp : desc.is_empty = true
    · simp [hemp]
    · by_cases hval : (!cur.is_configurable && !validateNonConfigurable desc cur) = true
      · simp [hemp, hval]
      · simp [hemp, hval]

end Project262
